import Mathlib

/-!
Shallow embedding of the meander identity and credential service:
the document-store wrapper (Backlog), the RSA key custody helpers, the
credential cache derivation, and the three request handlers CreateClient,
ConnectClient and ValidateToken, together with theorems about them.

External collaborators (Elasticsearch, the crypto and hash libraries, the
file system, the wall clock, entropy) are modelled at their interface
boundary: the store is an explicit association list threaded through the
operations, hash and key-derivation functions are parameters, key material
is identified symbolically, and fallible operations return Except.
-/

namespace Meander

/-- Byte content of a Go string, listed by character code. The listing is
injective, so equality of the byte slices of two strings coincides with
equality of the strings themselves. -/
def strBytes (s : String) : List Nat :=
  s.data.map Char.toNat

/-- Lowercase hexadecimal digit for a value below 16, as produced by the Go
function hex.EncodeToString. -/
def hexDigit (n : Nat) : Char :=
  if n < 10 then Char.ofNat (48 + n) else Char.ofNat (87 + n)

/-- Go hex.EncodeToString: two lowercase hexadecimal digits per byte. -/
def hexEncode (bs : List Nat) : String :=
  String.mk (bs.flatMap (fun b => [hexDigit ((b % 256) / 16), hexDigit (b % 16)]))

/-- External pure collaborators of the core: the SHA-256 digest function and
the two computed-key derivation functions GenerateComputedKeyA and
GenerateComputedKeyP from the client package. The spec treats the exact
derivations as internal collaborators that must be pure and deterministic;
the development is parametric in them. -/
structure Externals where
  sha256 : List Nat → List Nat
  genKeyA : String → String
  genKeyP : Int → String

/-- State of a Go sha256.New hasher: the bytes written so far. -/
def hasherNew : List Nat := []

/-- Hasher.Write appends bytes to the hasher state. -/
def hasherWrite (st bs : List Nat) : List Nat := st ++ bs

/-- Hasher.Sum(nil) digests the accumulated bytes; it does not reset the
hasher state. -/
def hasherSum (ext : Externals) (st : List Nat) : List Nat := ext.sha256 st

/-- A field value of an Elasticsearch document. -/
inductive DocVal where
  | str (s : String)
  | int (n : Int)
deriving DecidableEq, Repr

/-- A document: an association list from field names to values, first
binding wins. -/
abbrev Doc := List (String × DocVal)

/-- The document store: documents keyed by (index name, document id). -/
abbrev Store := List ((String × String) × Doc)

/-- Field lookup in a document. -/
def getField (d : Doc) (k : String) : Option DocVal :=
  match d.find? (fun kv => kv.1 == k) with
  | some kv => some kv.2
  | none => none

/-- String field lookup; a missing or non-string field yields none. -/
def getStr (d : Doc) (k : String) : Option String :=
  match getField d k with
  | some (DocVal.str s) => some s
  | _ => none

/-- Go type assertion document[k].(string): a missing or non-string field
panics; the panic is modelled as an error result. -/
def assertStr (d : Doc) (k : String) : Except String String :=
  match getStr d k with
  | some s => Except.ok s
  | none => Except.error ("panic: interface conversion on field " ++ k)

/-- Sets one field of a document, replacing an existing binding. -/
def setField : Doc → String → DocVal → Doc
  | [], k, v => [(k, v)]
  | kv :: rest, k, v =>
    if kv.1 == k then (k, v) :: rest else kv :: setField rest k v

/-- Document lookup in the store by index and id. -/
def storeGet (s : Store) (index id : String) : Option Doc :=
  match s.find? (fun e => e.1.1 == index && e.1.2 == id) with
  | some e => some e.2
  | none => none

/-- Stores a document under (index, id), replacing an existing one. -/
def storeSet : Store → String → String → Doc → Store
  | [], index, id, d => [((index, id), d)]
  | e :: rest, index, id, d =>
    if e.1.1 == index && e.1.2 == id then ((index, id), d) :: rest
    else e :: storeSet rest index id d

/-- Backlog.GetDocument: an Elasticsearch GetRequest; the 404 response for a
missing id is reported as an error through res.IsError(). -/
def GetDocument (s : Store) (index id : String) : Except String Doc :=
  match storeGet s index id with
  | some d => Except.ok d
  | none => Except.error "failed to get document: not found"

/-- Shallow merge of update fields into an existing document, as the
Elasticsearch partial update applies a plain doc body. -/
def mergeDoc (old upd : Doc) : Doc :=
  upd.foldl (fun d kv => setField d kv.1 kv.2) old

/-- Backlog.UpdateDocument: an Elasticsearch UpdateRequest whose body is a
plain doc map. It merges into an existing document and fails with a
document-missing error when the id does not exist, since the request does
not ask for doc_as_upsert. -/
def UpdateDocument (s : Store) (index id : String) (document : Doc) :
    Except String Store :=
  match storeGet s index id with
  | some old => Except.ok (storeSet s index id (mergeDoc old document))
  | none => Except.error "failed to update the document: document missing"

/-- Backlog.IndexDocument as written in the source: when GetDocument fails,
meaning the id is absent, it delegates to UpdateDocument; otherwise it
issues an IndexRequest, which fully overwrites the stored document. -/
def IndexDocument (s : Store) (index id : String) (document : Doc) :
    Except String Store :=
  match GetDocument s index id with
  | Except.error _ => UpdateDocument s index id document
  | Except.ok _ => Except.ok (storeSet s index id document)

/-- Backlog.FindDocument: a match query; the first hit is returned with its
id added under the "_id" field, and an empty result is no document and no
error. -/
def FindDocument (s : Store) (index field value : String) : Option Doc :=
  match s.find? (fun e => e.1.1 == index && getStr e.2 field == some value) with
  | some e => some (setField e.2 "_id" (DocVal.str e.1.2))
  | none => none

/-- RSA key material is identified symbolically: a keypair generated
together shares one key id, and asymmetric operations succeed exactly when
the ids of the two halves match. -/
structure CryptoResource where
  PrivateKey : Nat
  PublicKey : Nat
deriving DecidableEq, Repr

/-- NewCryptoResource: generates a fresh keypair; the private and public
halves match by construction. The fresh id is drawn from the entropy
source, which is an input here. -/
def NewCryptoResource (k : Nat) : CryptoResource :=
  { PrivateKey := k, PublicKey := k }

/-- CryptoResource.Identity: the hex encoding of the DER encoding of the
public key, modelled as an injective rendering of the public key id. -/
def Identity (c : CryptoResource) : String :=
  "identity-" ++ toString c.PublicKey

/-- CryptoResource.ImpersonatePublicKey: the PEM rendering of the public
key, modelled as an injective rendering of the key id. -/
def ImpersonatePublicKey (c : CryptoResource) : String :=
  "public-pem-" ++ toString c.PublicKey

/-- CryptoResource.ImpersonatePrivateKey: the PEM rendering of the private
key, modelled as an injective rendering of the key id. -/
def ImpersonatePrivateKey (c : CryptoResource) : String :=
  "private-pem-" ++ toString c.PrivateKey

/-- Modelled from the spec: the wire token (EncryptToken and DecryptToken
are not in src). The token is an encrypted blob carrying the serialized
payload map and, symbolically, the id of the public key it was encrypted
under. -/
structure Token where
  keyId : Nat
  payload : List (String × String)
deriving DecidableEq, Repr

/-- Modelled from the spec: EncryptToken encrypts the payload map under the
identity's own public key. -/
def EncryptToken (c : CryptoResource) (payload : List (String × String)) : Token :=
  { keyId := c.PublicKey, payload := payload }

/-- Modelled from the spec: DecryptToken succeeds exactly when the private
key on file matches the public key the token was encrypted under; a token
encrypted under a different key fails to decrypt rather than producing
garbage. -/
def DecryptToken (c : CryptoResource) (t : Token) :
    Except String (List (String × String)) :=
  if t.keyId = c.PrivateKey then Except.ok t.payload
  else Except.error "decryption error"

/-- The on-disk key directory of one account: the private key encrypted
under the registration secret, plus the cleartext public key, as written by
UploadPrivateKey and UploadPublicKey in crypto.go. -/
structure KeyDir where
  secret : String
  key : Nat
deriving DecidableEq, Repr

/-- The per-account key storage area under BASE_PATH: one directory per
uid. -/
abbrev KeyFS := String → Option KeyDir

/-- DownloadPrivateKey (crypto.go): reads BASE_PATH/uid/private.pem and
decrypts it with the supplied secret; a missing file and a wrong secret are
distinct errors. -/
def DownloadPrivateKey (fs : KeyFS) (secret uid : String) : Except String Nat :=
  match fs uid with
  | none => Except.error "failed to read file private.pem"
  | some d =>
    if d.secret = secret then Except.ok d.key
    else Except.error "failed to decrypt pem block"

/-- DownloadPublicKey (crypto.go): reads BASE_PATH/uid/public.pem, which is
stored in cleartext. -/
def DownloadPublicKey (fs : KeyFS) (uid : String) : Except String Nat :=
  match fs uid with
  | none => Except.error "failed to read file public.pem"
  | some d => Except.ok d.key

/-- The compareDigest helper: subtle.ConstantTimeCompare returns 1 exactly
when the two byte slices are equal, and string-to-bytes is injective, so
the comparison is equality of the underlying strings. -/
def compareDigest (a b : String) : Bool := a == b

/-- The credential cache, as populated by Client.CreateCache in client.go.
The struct declaration itself lives outside src, in the client package. -/
structure Cache where
  ComputedKeyA : String
  ComputedKeyP : String
  Timestamp : Int
  Alias : String
  Password : String
  PublicKey : String
deriving DecidableEq, Repr

/-- The function binary.BigEndian.Uint64 applied to the first eight digest
bytes, as in Client.CreateCache. -/
def beUint64 (bs : List Nat) : Nat :=
  (bs.take 8).foldl (fun acc b => acc * 256 + b % 256) 0

/-- Go conversion int(u) of a uint64 value into the signed 64-bit int
type. -/
def toInt64 (u : Nat) : Int :=
  if u % 2 ^ 64 < 2 ^ 63 then (u % 2 ^ 64 : Int)
  else (u % 2 ^ 64 : Int) - 2 ^ 64

/-- A registered client, with the fields of the Client struct in client.go.
The embedded crypto resource is carried as a field. -/
structure Client where
  crypto : CryptoResource
  UID : String
  Alias : String
  AccountId : String
  NodeAddress : String
  Address : String
  ClientId : String
  PublicKey : String
  PrivateKey : String
  Secret : String
  Password : String
deriving DecidableEq, Repr

/-- Client.CreateCache (client.go): computed key A is derived from the
account id; computed key P is derived from a signed numeric digest of the
stored password hash, taken from the first eight bytes of its SHA-256
digest in big-endian order. The wall-clock timestamp is an input. -/
def CreateCache (ext : Externals) (now : Int) (c : Client) : Cache :=
  let cka := ext.genKeyA c.AccountId
  let hasher := ext.sha256 (strBytes c.Password)
  let hash := toInt64 (beUint64 hasher)
  let ckp := ext.genKeyP hash
  { ComputedKeyA := cka, ComputedKeyP := ckp, Timestamp := now,
    Alias := c.Alias, Password := c.Password,
    PublicKey := ImpersonatePublicKey c.crypto }

/-- Modelled from the spec: Cache.Token (IssueToken) is not in src. It
serializes the two computed keys into the payload map read back by
ValidateToken and encrypts it via the owning CryptoIdentity. -/
def CacheToken (own : CryptoResource) (cache : Cache) : Except String Token :=
  Except.ok (EncryptToken own
    [("computed_key_a", cache.ComputedKeyA),
     ("computed_key_p", cache.ComputedKeyP)])

/-- The JSON document form of a cache, with the field names ValidateToken
reads back. -/
def cacheToDoc (c : Cache) : Doc :=
  [("computed_key_a", DocVal.str c.ComputedKeyA),
   ("computed_key_p", DocVal.str c.ComputedKeyP),
   ("timestamp", DocVal.int c.Timestamp),
   ("alias", DocVal.str c.Alias),
   ("password", DocVal.str c.Password),
   ("public_key", DocVal.str c.PublicKey)]

/-- The JSON document form of a client, following the json tags of the
Client struct; key material and the secret are excluded by their json
dashes. -/
def clientToDoc (c : Client) : Doc :=
  [("uid", DocVal.str c.UID),
   ("alias", DocVal.str c.Alias),
   ("account_id", DocVal.str c.AccountId),
   ("node", DocVal.str c.NodeAddress),
   ("address", DocVal.str c.Address),
   ("client_id", DocVal.str c.ClientId),
   ("password", DocVal.str c.Password)]

/-- Modelled from the spec: Upsert(collection, id, document) creates the
document when absent and overwrites it when present, the access pattern of
spec section 4.5 on which the spec-modelled persistence helper below
relies. -/
def SpecUpsert (s : Store) (index id : String) (document : Doc) : Store :=
  storeSet s index id document

/-- Modelled from the spec: Client.SyncWithBacklog(cache) is not in src.
Per the registration ordering of the spec it persists the cache document,
collection "cache", and then the client identity document, collection
"local_clients", both keyed by the client uid. -/
def ClientSyncWithBacklog (s : Store) (c : Client) (cache : Cache) : Store :=
  let s1 := SpecUpsert s "cache" c.UID (cacheToDoc cache)
  SpecUpsert s1 "local_clients" c.UID (clientToDoc c)

/-- Node.RetrieveClient (node/main.go): rebuilds a client from its stored
document, taking the password hash from the document and the secret from
the caller, reloads the keypair from disk, recomputes the identity string
and the credential cache, and re-persists both documents. The log.Fatalf
exits are modelled as error results. -/
def RetrieveClient (ext : Externals) (fs : KeyFS) (s : Store) (now : Int)
    (uid secret : String) : Except String (Client × Cache × Store) := do
  let document ← GetDocument s "local_clients" uid
  let accountId ← assertStr document "account_id"
  let aliasVal ← assertStr document "alias"
  let nodeAddress ← assertStr document "node"
  let address ← assertStr document "address"
  let password ← assertStr document "password"
  let priv ← DownloadPrivateKey fs secret uid
  let pub ← DownloadPublicKey fs uid
  let crypto : CryptoResource := { PrivateKey := priv, PublicKey := pub }
  let client : Client :=
    { crypto := crypto, UID := uid, Alias := aliasVal, AccountId := accountId,
      NodeAddress := nodeAddress, Address := address,
      ClientId := Identity crypto,
      PublicKey := ImpersonatePublicKey crypto,
      PrivateKey := ImpersonatePrivateKey crypto,
      Secret := secret, Password := password }
  let cache := CreateCache ext now client
  let s1 := ClientSyncWithBacklog s client cache
  Except.ok (client, cache, s1)

/-- The ClientPayload request message of the proto schema. -/
structure ClientPayload where
  aliasName : String
  password : String
  secret : String
deriving DecidableEq, Repr

/-- The Connection response message of the proto schema. -/
structure Connection where
  userId : String
  token : Token
deriving DecidableEq, Repr

/-- The ConnectionPayload request message of the proto schema. -/
structure ConnectionPayload where
  userId : String
  token : Token
  secret : String
deriving DecidableEq, Repr

/-- The Commit response message of the proto schema; the zero value of the
status field is 0 and of the optional error field is absent. -/
structure Commit where
  status : Int
  error : Option String
deriving DecidableEq, Repr

/-- MeanderServer.ConnectClient (server/main.go lines 84 to 113): looks the
alias up in local_clients, fails with a not-found error on a miss, and on a
hit rehydrates the client through RetrieveClient and issues a token from
the recomputed credential cache. -/
def ConnectClient (ext : Externals) (fs : KeyFS) (s : Store) (now : Int)
    (p : ClientPayload) : Except String Connection := do
  match FindDocument s "local_clients" "alias" p.aliasName with
  | none => Except.error "not found: the alias was not found inside the server"
  | some results => do
    let uid ← assertStr results "_id"
    let rc ← RetrieveClient ext fs s now uid p.secret
    let token ← CacheToken rc.1.crypto rc.2.1
    Except.ok { userId := rc.1.UID, token := token }

/-- Lookup of one field of the decrypted payload map; the Go type assertion
on a missing key panics, modelled as an error result. -/
def lookupPayload (payload : List (String × String)) (k : String) :
    Except String String :=
  match payload.find? (fun kv => kv.1 == k) with
  | some kv => Except.ok kv.2
  | none => Except.error ("panic: missing payload field " ++ k)

/-- The key-comparison tail of MeanderServer.ValidateToken (server/main.go
lines 146 to 172): reject with a key-A message when A mismatches, otherwise
reject with a key-P message when P mismatches, otherwise accept with the
zero-valued commit. -/
def keyComparison (cacheA payloadA cacheP payloadP : String) : Commit :=
  if !(compareDigest cacheA payloadA) then
    { status := 1, error := some "The computed key A doesn\'t match" }
  else if !(compareDigest cacheP payloadP) then
    { status := 1, error := some "The computed key P doesn\'t match" }
  else
    { status := 0, error := none }

/-- MeanderServer.ValidateToken (server/main.go lines 115 to 174): loads
the stored keypair for the uid, decrypts the token with it, loads the cache
document, and compares each computed key of the payload with the cache
through compareDigest, checking key A first. -/
def ValidateToken (fs : KeyFS) (s : Store) (p : ConnectionPayload) :
    Except String Commit := do
  let priv ← (DownloadPrivateKey fs p.secret p.userId).mapError
    (fun e => "failed to download private key: " ++ e)
  let pub ← (DownloadPublicKey fs p.userId).mapError
    (fun e => "failed to download public key: " ++ e)
  let crypto : CryptoResource := { PrivateKey := priv, PublicKey := pub }
  let payload ← (DecryptToken crypto p.token).mapError
    (fun e => "failed to decrypt the token: " ++ e)
  let cache ← (GetDocument s "cache" p.userId).mapError
    (fun e => "failed to get cache document: " ++ e)
  let cacheA ← assertStr cache "computed_key_a"
  let payloadA ← lookupPayload payload "computed_key_a"
  if !(compareDigest cacheA payloadA) then
    Except.ok { status := 1, error := some "The computed key A doesn\'t match" }
  else do
    let cacheP ← assertStr cache "computed_key_p"
    let payloadP ← lookupPayload payload "computed_key_p"
    if !(compareDigest cacheP payloadP) then
      Except.ok { status := 1, error := some "The computed key P doesn\'t match" }
    else
      Except.ok { status := 0, error := none }

/-- The observable steps of one registration request, in the order they are
performed by Node.NewLocalClient. -/
inductive Event where
  | mkdirAccount
  | keyGen
  | persistPrivate
  | persistPublic
  | cacheCompute
  | cachePersist
  | identityPersist
  | foreignPersist
deriving DecidableEq, Repr

/-- Client.GenerateCrypto (client.go lines 97 to 115): generates the
keypair, then uploads the encrypted private key, then uploads the public
key. -/
def GenerateCryptoTrace : List Event :=
  [Event.keyGen, Event.persistPrivate, Event.persistPublic]

/-- Modelled from the spec: the step trace of Client.SyncWithBacklog(cache),
which is not in src; it persists the cache document and then the client
identity document. -/
def ClientSyncTrace : List Event :=
  [Event.cachePersist, Event.identityPersist]

/-- ForeignClient.SyncWithBacklog (transaction.go): persists the foreign
projection of the client into the "clients" collection. -/
def ForeignSyncTrace : List Event :=
  [Event.foreignPersist]

/-- Node.NewLocalClient (node/main.go lines 145 to 194), with the hasher
mutations rendered by explicit state passing and the randomly drawn uuid,
account id, key id and the wall clock taken as inputs. Returns the built
client, its credential cache, and the ordered list of steps performed. In
the source the address hash is read from the address hasher before the
password bytes are written into that same hasher, and the password hasher
is summed without ever being written to. -/
def NewLocalClient (ext : Externals)
    (host aliasName address secret password uid accountId : String)
    (k : Nat) (now : Int) : Client × Cache × List Event :=
  let nodeHasher := hasherWrite hasherNew (strBytes host)
  let nodeHash := hexEncode (hasherSum ext nodeHasher)
  let addrHasher := hasherWrite hasherNew (strBytes address)
  let addrHash := hexEncode (hasherSum ext addrHasher)
  let pwdHasher := hasherNew
  let _addrHasherAfter := hasherWrite addrHasher (strBytes password)
  let pwdHash := hexEncode (hasherSum ext pwdHasher)
  let crypto := NewCryptoResource k
  let client : Client :=
    { crypto := crypto, UID := uid, AccountId := accountId,
      Alias := aliasName, NodeAddress := nodeHash, Address := addrHash,
      Secret := secret, Password := pwdHash,
      ClientId := Identity crypto,
      PublicKey := ImpersonatePublicKey crypto,
      PrivateKey := ImpersonatePrivateKey crypto }
  let cache := CreateCache ext now client
  (client, cache,
    [Event.mkdirAccount] ++ GenerateCryptoTrace ++ [Event.cacheCompute]
      ++ ClientSyncTrace ++ ForeignSyncTrace)

/-- Scan state of the password-policy loop in CreateClient
(server/main.go lines 49 to 67). -/
structure PwdScan where
  hasMin : Bool
  hasMaj : Bool
  hasNum : Bool
  length : Nat
deriving DecidableEq, Repr

/-- Go unicode.IsLower on the ASCII range, over which the Unicode tables of
the unicode package agree with this bound check. -/
def goIsLower (c : Char) : Bool :=
  97 ≤ c.toNat && c.toNat ≤ 122

/-- Go unicode.IsUpper on the ASCII range. -/
def goIsUpper (c : Char) : Bool :=
  65 ≤ c.toNat && c.toNat ≤ 90

/-- Go unicode.IsDigit on the ASCII range. -/
def goIsDigit (c : Char) : Bool :=
  48 ≤ c.toNat && c.toNat ≤ 57

/-- One iteration of the password-policy loop: the switch marks the first
matching class and the length counter advances on every rune. -/
def pwdStep (st : PwdScan) (char : Char) : PwdScan :=
  let st :=
    if goIsLower char then { st with hasMin := true }
    else if goIsUpper char then { st with hasMaj := true }
    else if goIsDigit char then { st with hasNum := true }
    else st
  { st with length := st.length + 1 }

/-- The password-policy closure of CreateClient (server/main.go lines 49 to
67): at least ten runes, one lowercase letter, one uppercase letter and one
digit. -/
def passwordCheck (password : String) : Bool :=
  let st := password.data.foldl pwdStep
    { hasMin := false, hasMaj := false, hasNum := false, length := 0 }
  decide (st.length ≥ 10) && st.hasMin && st.hasMaj && st.hasNum

/-- Decidable equality of Except results, for evaluating handler outcomes
on concrete inputs. -/
instance {ε α : Type} [DecidableEq ε] [DecidableEq α] :
    DecidableEq (Except ε α)
  | Except.error e, Except.error f =>
    if h : e = f then Decidable.isTrue (congrArg _ h)
    else Decidable.isFalse (fun hh => h (Except.error.inj hh))
  | Except.error _, Except.ok _ => Decidable.isFalse Except.noConfusion
  | Except.ok _, Except.error _ => Decidable.isFalse Except.noConfusion
  | Except.ok x, Except.ok y =>
    if h : x = y then Decidable.isTrue (congrArg _ h)
    else Decidable.isFalse (fun hh => h (Except.ok.inj hh))

/-- Concrete externals for evaluating the handlers on test inputs: the
digest function is the identity on byte lists and the two derivations are
injective renderings of their inputs. -/
def cExt : Externals :=
  { sha256 := fun bs => bs, genKeyA := fun s => s, genKeyP := fun i => toString i }

/-- Concrete key storage: one account directory for uid u1, its private key
encrypted under the secret sec, key id 7. -/
def cFS : KeyFS :=
  fun uid => if uid = "u1" then some { secret := "sec", key := 7 } else none

/-- Concrete persisted cache document for uid u1. -/
def cCacheDoc : Doc :=
  [("computed_key_a", DocVal.str "A1"), ("computed_key_p", DocVal.str "P1")]

/-- Concrete store holding only the cache document of u1. -/
def cStoreCache : Store := [(("cache", "u1"), cCacheDoc)]

/-- Concrete stored client document whose password-hash field is hash1. -/
def cDocHash1 : Doc :=
  [("alias", DocVal.str "bob"), ("account_id", DocVal.str "123"),
   ("node", DocVal.str "nh"), ("address", DocVal.str "ah"),
   ("password", DocVal.str "hash1")]

/-- The same stored client document except for its password-hash field. -/
def cDocHash2 : Doc :=
  [("alias", DocVal.str "bob"), ("account_id", DocVal.str "123"),
   ("node", DocVal.str "nh"), ("address", DocVal.str "ah"),
   ("password", DocVal.str "hash2")]

/-- Store holding the hash1 variant of the client document. -/
def cStoreH1 : Store := [(("local_clients", "u1"), cDocHash1)]

/-- Store holding the hash2 variant of the client document. -/
def cStoreH2 : Store := [(("local_clients", "u1"), cDocHash2)]

/-- Store holding one client registered under the alias alice. -/
def cStoreAlice : Store :=
  [(("local_clients", "u1"), [("alias", DocVal.str "alice")])]

/-- A connect request carrying a fresh password value. -/
def cReqFresh : ClientPayload :=
  { aliasName := "bob", password := "FreshPass1X", secret := "sec" }

/-- A token whose payload matches the cache document of u1. -/
def cTokOK : Token :=
  { keyId := 7, payload := [("computed_key_a", "A1"), ("computed_key_p", "P1")] }

/-- A validation request with the matching token. -/
def cPayOK : ConnectionPayload := { userId := "u1", token := cTokOK, secret := "sec" }

/-- A token whose payload mismatches the cache only on computed key A. -/
def cTokBadA : Token :=
  { keyId := 7, payload := [("computed_key_a", "WRONG"), ("computed_key_p", "P1")] }

/-- A validation request mismatching only on key A. -/
def cPayBadA : ConnectionPayload :=
  { userId := "u1", token := cTokBadA, secret := "sec" }

/-- A token whose payload mismatches the cache only on computed key P. -/
def cTokBadP : Token :=
  { keyId := 7, payload := [("computed_key_a", "A1"), ("computed_key_p", "WRONG")] }

/-- A validation request mismatching only on key P. -/
def cPayBadP : ConnectionPayload :=
  { userId := "u1", token := cTokBadP, secret := "sec" }

/-!
Theorems. Each claim of the specification review is settled by one theorem
below, with helper lemmas preceding the theorems that use them.
-/

/-- Binding a successful Except result applies the continuation. -/
theorem ok_bind {ε α β : Type} (a : α) (f : α → Except ε β) :
    (Except.ok a : Except ε α) >>= f = f a := rfl

/-- C3: for every registration through NewLocalClient the persisted
password hash equals the hex digest of the empty byte list: the password
bytes are written into the address hasher after the address hash has been
read, and the password hasher is summed without ever being written to, so
the stored hash is one constant independent of the chosen password. -/
theorem newLocalClient_password_hash_constant
    (ext : Externals) (host aliasName address secret uid accountId : String)
    (k : Nat) (now : Int) :
    (∀ password,
      (NewLocalClient ext host aliasName address secret password uid accountId k now).1.Password
        = hexEncode (ext.sha256 [])
      ∧ getStr (clientToDoc
          (NewLocalClient ext host aliasName address secret password uid accountId k now).1)
          "password"
        = some (hexEncode (ext.sha256 [])))
    ∧ ∀ pw1 pw2,
      (NewLocalClient ext host aliasName address secret pw1 uid accountId k now).1.Password
        = (NewLocalClient ext host aliasName address secret pw2 uid accountId k now).1.Password :=
  ⟨fun _ => ⟨rfl, rfl⟩, fun _ _ => rfl⟩

/-- C9: decrypting the encryption of any payload with the keypair it was
generated with returns the original payload. -/
theorem decryptToken_encryptToken_roundtrip (k : Nat)
    (payload : List (String × String)) :
    DecryptToken (NewCryptoResource k) (EncryptToken (NewCryptoResource k) payload)
      = Except.ok payload := by
  simp [DecryptToken, EncryptToken, NewCryptoResource]

/-- C7: IndexDocument evaluated where the id is absent routes to the
partial-update request, which cannot create, so the call errors and no
document is created; where the id is present the stored document is fully
overwritten. The create-if-absent half of the upsert contract fails. -/
theorem indexDocument_absent_errors :
    IndexDocument [] "clients" "c1" [("alias", DocVal.str "bob")]
      = Except.error "failed to update the document: document missing"
    ∧ IndexDocument [(("clients", "c1"), [("alias", DocVal.str "old")])]
        "clients" "c1" [("alias", DocVal.str "bob")]
      = Except.ok [(("clients", "c1"), [("alias", DocVal.str "bob")])] :=
  ⟨rfl, rfl⟩

/-- C8: within one registration the step trace of NewLocalClient performs
key generation, private-key persist, public-key persist, cache compute,
cache persist, identity persist and foreign persist each exactly once and
in this order; in particular both key files are written before the identity
document is persisted. -/
theorem newLocalClient_step_order (ext : Externals)
    (host aliasName address secret password uid accountId : String)
    (k : Nat) (now : Int) :
    ((NewLocalClient ext host aliasName address secret password uid accountId k now).2.2.indexOf
        Event.keyGen
      < (NewLocalClient ext host aliasName address secret password uid accountId k now).2.2.indexOf
        Event.persistPrivate
    ∧ (NewLocalClient ext host aliasName address secret password uid accountId k now).2.2.indexOf
        Event.persistPrivate
      < (NewLocalClient ext host aliasName address secret password uid accountId k now).2.2.indexOf
        Event.persistPublic
    ∧ (NewLocalClient ext host aliasName address secret password uid accountId k now).2.2.indexOf
        Event.persistPublic
      < (NewLocalClient ext host aliasName address secret password uid accountId k now).2.2.indexOf
        Event.cacheCompute
    ∧ (NewLocalClient ext host aliasName address secret password uid accountId k now).2.2.indexOf
        Event.cacheCompute
      < (NewLocalClient ext host aliasName address secret password uid accountId k now).2.2.indexOf
        Event.cachePersist
    ∧ (NewLocalClient ext host aliasName address secret password uid accountId k now).2.2.indexOf
        Event.cachePersist
      < (NewLocalClient ext host aliasName address secret password uid accountId k now).2.2.indexOf
        Event.identityPersist
    ∧ (NewLocalClient ext host aliasName address secret password uid accountId k now).2.2.indexOf
        Event.identityPersist
      < (NewLocalClient ext host aliasName address secret password uid accountId k now).2.2.indexOf
        Event.foreignPersist)
    ∧ ((NewLocalClient ext host aliasName address secret password uid accountId k now).2.2.count
        Event.keyGen = 1
    ∧ (NewLocalClient ext host aliasName address secret password uid accountId k now).2.2.count
        Event.persistPrivate = 1
    ∧ (NewLocalClient ext host aliasName address secret password uid accountId k now).2.2.count
        Event.persistPublic = 1
    ∧ (NewLocalClient ext host aliasName address secret password uid accountId k now).2.2.count
        Event.cacheCompute = 1
    ∧ (NewLocalClient ext host aliasName address secret password uid accountId k now).2.2.count
        Event.cachePersist = 1
    ∧ (NewLocalClient ext host aliasName address secret password uid accountId k now).2.2.count
        Event.identityPersist = 1
    ∧ (NewLocalClient ext host aliasName address secret password uid accountId k now).2.2.count
        Event.foreignPersist = 1) := by
  have h : (NewLocalClient ext host aliasName address secret password uid accountId k now).2.2
      = [Event.mkdirAccount, Event.keyGen, Event.persistPrivate, Event.persistPublic,
         Event.cacheCompute, Event.cachePersist, Event.identityPersist,
         Event.foreignPersist] := rfl
  rw [h]
  decide

/-- An ASCII uppercase letter is not an ASCII lowercase letter. -/
theorem goIsUpper_not_lower {c : Char} (h : goIsUpper c = true) :
    goIsLower c = false := by
  simp only [goIsUpper, Bool.and_eq_true, decide_eq_true_eq] at h
  simp only [goIsLower, Bool.and_eq_false_iff, decide_eq_false_iff_not]
  omega

/-- An ASCII digit is neither an ASCII lowercase nor uppercase letter. -/
theorem goIsDigit_not_letter {c : Char} (h : goIsDigit c = true) :
    goIsLower c = false ∧ goIsUpper c = false := by
  simp only [goIsDigit, Bool.and_eq_true, decide_eq_true_eq] at h
  simp only [goIsLower, goIsUpper, Bool.and_eq_false_iff, decide_eq_false_iff_not]
  omega

/-- The password-scan fold marks exactly the classes witnessed by some
character, where the switch gives lowercase priority over uppercase over
digit, and counts the characters. -/
theorem pwdScan_foldl (l : List Char) (st : PwdScan) :
    l.foldl pwdStep st =
      { hasMin := st.hasMin || l.any goIsLower,
        hasMaj := st.hasMaj || l.any (fun c => !goIsLower c && goIsUpper c),
        hasNum := st.hasNum
          || l.any (fun c => !goIsLower c && !goIsUpper c && goIsDigit c),
        length := st.length + l.length } := by
  induction l generalizing st with
  | nil => cases st; simp
  | cons c l ih =>
    rw [List.foldl_cons, ih]
    by_cases h1 : goIsLower c
    · simp [pwdStep, h1, Bool.or_assoc, Nat.add_assoc, Nat.add_comm 1 l.length]
    · by_cases h2 : goIsUpper c
      · simp [pwdStep, h1, h2, Bool.or_assoc, Nat.add_assoc, Nat.add_comm 1 l.length]
      · by_cases h3 : goIsDigit c
        · simp [pwdStep, h1, h2, h3, Bool.or_assoc, Nat.add_assoc,
            Nat.add_comm 1 l.length]
        · simp [pwdStep, h1, h2, h3, Nat.add_assoc, Nat.add_comm 1 l.length]

/-- Because the character classes are disjoint, the exclusive uppercase
scan agrees with the plain uppercase scan. -/
theorem any_exclusive_upper (l : List Char) :
    l.any (fun c => !goIsLower c && goIsUpper c) = l.any goIsUpper := by
  induction l with
  | nil => rfl
  | cons c l ih =>
    by_cases h : goIsUpper c
    · simp [h, goIsUpper_not_lower h]
    · simp [h, ih]

/-- Because the character classes are disjoint, the exclusive digit scan
agrees with the plain digit scan. -/
theorem any_exclusive_digit (l : List Char) :
    l.any (fun c => !goIsLower c && !goIsUpper c && goIsDigit c)
      = l.any goIsDigit := by
  induction l with
  | nil => rfl
  | cons c l ih =>
    by_cases h : goIsDigit c
    · simp [h, (goIsDigit_not_letter h).1, (goIsDigit_not_letter h).2]
    · simp [h, ih]

/-- C6: the password validation of CreateClient accepts a password exactly
when it has at least ten characters with at least one lowercase letter, one
uppercase letter and one digit; in particular the four policy examples of
the spec evaluate as stated. -/
theorem passwordCheck_policy :
    (∀ p : String, passwordCheck p = true ↔
      (10 ≤ p.length ∧ (∃ c ∈ p.data, goIsLower c = true)
        ∧ (∃ c ∈ p.data, goIsUpper c = true)
        ∧ (∃ c ∈ p.data, goIsDigit c = true)))
    ∧ passwordCheck "short1A" = false
    ∧ passwordCheck "alllowercase1" = false
    ∧ passwordCheck "NoDigitsHereAB" = false
    ∧ passwordCheck "Valid1Password" = true := by
  refine ⟨fun p => ?_, by decide, by decide, by decide, by decide⟩
  unfold passwordCheck
  rw [pwdScan_foldl, any_exclusive_upper, any_exclusive_digit]
  simp only [Bool.false_or, Bool.and_eq_true, decide_eq_true_eq,
    List.any_eq_true, String.length, Nat.zero_add]
  constructor
  · rintro ⟨⟨⟨hl, hmin⟩, hmaj⟩, hnum⟩
    exact ⟨hl, hmin, hmaj, hnum⟩
  · rintro ⟨hl, hmin, hmaj, hnum⟩
    exact ⟨⟨⟨hl, hmin⟩, hmaj⟩, hnum⟩

/-- C1: a ValidateToken call that reaches the key comparison, with the
keypair loaded, the token decrypted, the cache document found and all four
key fields present, returns the key-comparison commit: status 0 exactly
when both the computed key A and the computed key P of the payload equal
those of the persisted cache, and status 1 when either single key
mismatches. -/
theorem validateToken_accepts_iff_both_keys_match
    (fs : KeyFS) (s : Store) (p : ConnectionPayload) (kpriv kpub : Nat)
    (payload : List (String × String)) (cacheDoc : Doc)
    (cacheA payloadA cacheP payloadP : String)
    (hpriv : DownloadPrivateKey fs p.secret p.userId = Except.ok kpriv)
    (hpub : DownloadPublicKey fs p.userId = Except.ok kpub)
    (hdec : DecryptToken { PrivateKey := kpriv, PublicKey := kpub } p.token
      = Except.ok payload)
    (hcache : GetDocument s "cache" p.userId = Except.ok cacheDoc)
    (hca : assertStr cacheDoc "computed_key_a" = Except.ok cacheA)
    (hpa : lookupPayload payload "computed_key_a" = Except.ok payloadA)
    (hcp : assertStr cacheDoc "computed_key_p" = Except.ok cacheP)
    (hpp : lookupPayload payload "computed_key_p" = Except.ok payloadP) :
    ValidateToken fs s p = Except.ok (keyComparison cacheA payloadA cacheP payloadP)
    ∧ ((keyComparison cacheA payloadA cacheP payloadP).status = 0
        ↔ (cacheA = payloadA ∧ cacheP = payloadP))
    ∧ ((cacheA ≠ payloadA ∨ cacheP ≠ payloadP)
        → (keyComparison cacheA payloadA cacheP payloadP).status = 1) := by
  by_cases hA : cacheA = payloadA
  · by_cases hP : cacheP = payloadP
    · simp [ValidateToken, hpriv, hpub, hdec, hcache, hca, hpa, hcp, hpp,
        Except.mapError, ok_bind, keyComparison, compareDigest, hA, hP]
    · simp [ValidateToken, hpriv, hpub, hdec, hcache, hca, hpa, hcp, hpp,
        Except.mapError, ok_bind, keyComparison, compareDigest, hA, hP]
  · simp [ValidateToken, hpriv, hpub, hdec, hcache, hca, hpa, hcp, hpp,
      Except.mapError, ok_bind, keyComparison, compareDigest, hA]

/-- Witness for C1 at a concrete matching input: the request of u1 with the
token whose payload equals the cache document is accepted. -/
theorem validateToken_accepts_iff_both_keys_match_witness :
    ValidateToken cFS cStoreCache cPayOK
      = Except.ok (keyComparison "A1" "A1" "P1" "P1")
    ∧ ((keyComparison "A1" "A1" "P1" "P1").status = 0
        ↔ ("A1" = "A1" ∧ "P1" = "P1"))
    ∧ (("A1" ≠ "A1" ∨ "P1" ≠ "P1")
        → (keyComparison "A1" "A1" "P1" "P1").status = 1) :=
  validateToken_accepts_iff_both_keys_match cFS cStoreCache cPayOK 7 7
    cTokOK.payload cCacheDoc "A1" "A1" "P1" "P1"
    rfl rfl rfl rfl rfl rfl rfl rfl

/-- C5 counterexample: at concrete inputs where only computed key A
mismatches and where only computed key P mismatches, the commits returned
to the caller differ: each rejection carries a message naming the
mismatching key. -/
theorem validateToken_mismatch_commits_differ :
    ValidateToken cFS cStoreCache cPayBadA
      = Except.ok { status := 1, error := some "The computed key A doesn\'t match" }
    ∧ ValidateToken cFS cStoreCache cPayBadP
      = Except.ok { status := 1, error := some "The computed key P doesn\'t match" }
    ∧ ValidateToken cFS cStoreCache cPayBadA ≠ ValidateToken cFS cStoreCache cPayBadP :=
  ⟨rfl, rfl, by decide⟩

/-- C5 amended: an A-only rejection and a P-only rejection agree on status
1 but return different error messages, each naming the computed key that
failed, so the two rejections are distinguishable by the caller. -/
theorem keyComparison_rejections_distinguish_key
    (cacheA payloadA cacheP payloadP : String)
    (cacheA2 payloadA2 cacheP2 payloadP2 : String)
    (hA : cacheA ≠ payloadA)
    (hA2 : cacheA2 = payloadA2) (hP2 : cacheP2 ≠ payloadP2) :
    keyComparison cacheA payloadA cacheP payloadP
      = { status := 1, error := some "The computed key A doesn\'t match" }
    ∧ keyComparison cacheA2 payloadA2 cacheP2 payloadP2
      = { status := 1, error := some "The computed key P doesn\'t match" }
    ∧ keyComparison cacheA payloadA cacheP payloadP
        ≠ keyComparison cacheA2 payloadA2 cacheP2 payloadP2 := by
  simp [keyComparison, compareDigest, hA, hA2, hP2]

/-- Witness for the amended C5 at concrete strings. -/
theorem keyComparison_rejections_distinguish_key_witness :
    keyComparison "a" "x" "p" "p"
      = { status := 1, error := some "The computed key A doesn\'t match" }
    ∧ keyComparison "a" "a" "p" "q"
      = { status := 1, error := some "The computed key P doesn\'t match" }
    ∧ keyComparison "a" "x" "p" "p" ≠ keyComparison "a" "a" "p" "q" :=
  keyComparison_rejections_distinguish_key "a" "x" "p" "p" "a" "a" "p" "q"
    (by decide) rfl (by decide)

/-- C10: when no stored client document in local_clients carries the
requested alias, ConnectClient returns the not-found error and issues no
token. -/
theorem connectClient_unknown_alias_not_found
    (ext : Externals) (fs : KeyFS) (s : Store) (now : Int) (p : ClientPayload)
    (h : ∀ e ∈ s, e.1.1 = "local_clients" → getStr e.2 "alias" ≠ some p.aliasName) :
    ConnectClient ext fs s now p
      = Except.error "not found: the alias was not found inside the server" := by
  have hfind : s.find?
      (fun e => e.1.1 == "local_clients" && getStr e.2 "alias" == some p.aliasName)
      = none := by
    rw [List.find?_eq_none]
    intro e he
    simp only [Bool.and_eq_true, beq_iff_eq, not_and]
    exact h e he
  simp [ConnectClient, FindDocument, hfind]

/-- Witness for C10: connecting with the alias bob against a store whose
only client is registered as alice fails with the not-found error. -/
theorem connectClient_unknown_alias_not_found_witness :
    ConnectClient cExt cFS cStoreAlice 0
      { aliasName := "bob", password := "pw", secret := "sec" }
      = Except.error "not found: the alias was not found inside the server" :=
  connectClient_unknown_alias_not_found cExt cFS cStoreAlice 0
    { aliasName := "bob", password := "pw", secret := "sec" } (by decide)

/-- C4: ConnectClient never reads the password field of its request: two
requests differing only in the password behave identically, so success or
failure and the issued token are independent of the supplied password. -/
theorem connectClient_password_not_read
    (ext : Externals) (fs : KeyFS) (s : Store) (now : Int)
    (aliasName secret pw1 pw2 : String) :
    ConnectClient ext fs s now
      { aliasName := aliasName, password := pw1, secret := secret }
      = ConnectClient ext fs s now
        { aliasName := aliasName, password := pw2, secret := secret } := rfl

/-- C2 counterexample: two stores that differ only in the password-hash
field of the stored client document yield different connect results for
one and the same request, whose own password field is held fixed: the
credential cache is recomputed from the stored hash, which is read back
from the client document, not from a password supplied fresh by the
caller. -/
theorem connectClient_recomputes_from_stored_document :
    ConnectClient cExt cFS cStoreH1 0 cReqFresh
      ≠ ConnectClient cExt cFS cStoreH2 0 cReqFresh := by
  decide

/-- C2 amended: on the rehydration path the client is rebuilt with the
password hash read back from the stored document, and the credential cache
is recomputed from that stored hash; RetrieveClient receives no password
at all, only the uid and the secret. -/
theorem retrieveClient_cache_from_stored_hash
    (ext : Externals) (fs : KeyFS) (s : Store) (now : Int) (uid secret : String)
    (document : Doc)
    (accountId aliasVal nodeAddress address password : String) (kd : KeyDir)
    (hdoc : GetDocument s "local_clients" uid = Except.ok document)
    (hacc : assertStr document "account_id" = Except.ok accountId)
    (hali : assertStr document "alias" = Except.ok aliasVal)
    (hnod : assertStr document "node" = Except.ok nodeAddress)
    (hadr : assertStr document "address" = Except.ok address)
    (hpwd : assertStr document "password" = Except.ok password)
    (hfs : fs uid = some kd) (hsec : kd.secret = secret) :
    ∃ client cache s1,
      RetrieveClient ext fs s now uid secret = Except.ok (client, cache, s1)
      ∧ client.Password = password
      ∧ cache.Password = password
      ∧ cache.ComputedKeyA = ext.genKeyA accountId
      ∧ cache.ComputedKeyP
          = ext.genKeyP (toInt64 (beUint64 (ext.sha256 (strBytes password)))) := by
  unfold RetrieveClient DownloadPrivateKey DownloadPublicKey
  rw [hdoc, ok_bind, hacc, ok_bind, hali, ok_bind, hnod, ok_bind, hadr, ok_bind,
    hpwd, ok_bind, hfs]
  simp only [hsec, eq_self_iff_true, if_true, ok_bind]
  exact ⟨_, _, _, rfl, rfl, rfl, rfl, rfl⟩

/-- Witness for the amended C2 at the concrete hash1 store. -/
theorem retrieveClient_cache_from_stored_hash_witness :
    ∃ client cache s1,
      RetrieveClient cExt cFS cStoreH1 0 "u1" "sec" = Except.ok (client, cache, s1)
      ∧ client.Password = "hash1"
      ∧ cache.Password = "hash1"
      ∧ cache.ComputedKeyA = cExt.genKeyA "123"
      ∧ cache.ComputedKeyP
          = cExt.genKeyP (toInt64 (beUint64 (cExt.sha256 (strBytes "hash1")))) :=
  retrieveClient_cache_from_stored_hash cExt cFS cStoreH1 0 "u1" "sec"
    cDocHash1 "123" "bob" "nh" "ah" "hash1" { secret := "sec", key := 7 }
    rfl rfl rfl rfl rfl rfl rfl rfl

end Meander
